import Mathlib

/-!
# ACADO symbolic operators `Asin` and `Logarithm`

A shallow embedding of `src/symbolic_operator/asin.cpp` and
`src/symbolic_operator/logarithm.cpp`.

* Expression DAGs are values of the inductive type `Operator`; it has one
  constructor for every node kind the two files build with `new`, and `Atom`
  for a subexpression of any kind defined elsewhere.
* The receiver of a member function is a `UnaryOperator` record holding the
  fields the two files read or write (`argument`, `dargument`, `curvature`).
  A member function that assigns a field returns the updated record.
* Calls through the abstract base class into the argument
  (`argument->differentiate(index)`, `->clone()`, `->isOneOrZero()`, ...) are
  virtual; their implementations are not in the two files, so they are taken
  as a table of functions `VirtualMethods`.
* `double` is a field `α` with the libm functions as parameters; the theorems
  about values instantiate `α` with the reals.
-/

namespace Acado

/-- Simplification tag of an expression (`NeutralElement`), the answer of `isOneOrZero()`. -/
inductive NeutralElement where
  | NE_ZERO
  | NE_ONE
  | NE_NEITHER_ONE_NOR_ZERO
  deriving DecidableEq

/-- Curvature classes (`CurvatureType`) named in `Logarithm::getCurvature`, with the
remaining class `CT_CONVEX` of the lattice. -/
inductive CurvatureType where
  | CT_CONSTANT
  | CT_AFFINE
  | CT_CONVEX
  | CT_CONCAVE
  | CT_NEITHER_CONVEX_NOR_CONCAVE
  | CT_UNKNOWN
  deriving DecidableEq

/-- Status codes (`returnValue`).  The two files only ever produce `SUCCESSFUL_RETURN`;
`RET_OTHER` stands for every other code a callee may answer with. -/
inductive returnValue where
  | SUCCESSFUL_RETURN
  | RET_OTHER (code : Nat)
  deriving DecidableEq

/-- The enumeration `VariableType`; its values are only passed through to the argument. -/
abbrev VariableType := Nat

/-- Expression nodes.  `DoubleConstant`, `Addition`, `Subtraction`, `Product`, `Quotient`,
`Power`, `Power_Int`, `Asin` and `Logarithm` are the kinds constructed in the two files;
`Atom` is a subexpression of a kind defined elsewhere (a variable, a projection, another
operator), identified by a number. -/
inductive Operator where
  | DoubleConstant (value : ℚ) (neutralElement : NeutralElement)
  | Addition (argument1 argument2 : Operator)
  | Subtraction (argument1 argument2 : Operator)
  | Product (argument1 argument2 : Operator)
  | Quotient (argument1 argument2 : Operator)
  | Power (argument1 argument2 : Operator)
  | Power_Int (argument : Operator) (exponent : Int)
  | Asin (argument : Operator)
  | Logarithm (argument : Operator)
  | Atom (id : Nat)
  deriving DecidableEq

/-- The reference parameters `int &nNewIS, TreeProjection ***newIS`: the number of new
intermediate states and the array of them. -/
structure IndexSet where
  nNewIS : Int
  newIS : List Operator
  deriving DecidableEq

/-- The fields of a unary operator node that the two files read or write.
`dargument = none` is the null pointer. -/
structure UnaryOperator where
  argument : Operator
  dargument : Option Operator
  curvature : CurvatureType
  deriving DecidableEq

/-- The virtual member functions of the abstract class `Operator` that the two files call
on `argument`, `dargument` and `seed`.  Each takes the object it is called on first.
`AD_forward` answers with the derivative expression and the index set it leaves;
`AD_backward` with its status, the result array `df` and the index set it leaves. -/
structure VirtualMethods where
  differentiate : Operator → Int → Operator
  clone : Operator → Operator
  isOneOrZero : Operator → NeutralElement
  getCurvature : Operator → CurvatureType
  substitute : Operator → Int → Operator → Operator
  AD_forward : Operator → Int → List VariableType → List Int → List Operator → IndexSet →
    Operator × IndexSet
  AD_backward : Operator → Int → List VariableType → List Int → Operator → List Operator →
    IndexSet → returnValue × List Operator × IndexSet

/-! ## Scalar derivative functions -/

/-- `double dAsin(double x)`: `1/sqrt(1-x*x)`. -/
def dAsin {α : Type} [Field α] (sqrt : α → α) (x : α) : α :=
  1 / sqrt (1 - x * x)

/-- `double ddAsin(double x)`. -/
def ddAsin {α : Type} [Field α] (sqrt : α → α) (x : α) : α :=
  let v1 := sqrt (1 - x * x)
  (-2) * x * (-0.5 / v1 / v1 / v1)

/-- `double dLogarithm(double x)`: `1/x`. -/
def dLogarithm {α : Type} [Field α] (x : α) : α :=
  1 / x

/-- `double ddLogarithm(double x)`: `-1/x/x`. -/
def ddLogarithm {α : Type} [Field α] (x : α) : α :=
  (-1) / x / x

/-! ## `asin.cpp` -/

/-- `Operator* Asin::differentiate( int index )`.  The assignment to the member
`dargument` is the second component of the result. -/
def Asin.differentiate (vm : VirtualMethods) (self : UnaryOperator) (index : Int) :
    Operator × UnaryOperator :=
  let dargument := vm.differentiate self.argument index
  let self1 : UnaryOperator := { self with dargument := some dargument }
  if vm.isOneOrZero dargument = NeutralElement.NE_ZERO then
    (Operator.DoubleConstant 0.0 NeutralElement.NE_ZERO, self1)
  else if vm.isOneOrZero dargument = NeutralElement.NE_ONE then
    (Operator.Power
      (Operator.Subtraction
        (Operator.DoubleConstant 1.0 NeutralElement.NE_ONE)
        (Operator.Power_Int (vm.clone self.argument) 2))
      (Operator.DoubleConstant (-0.5) NeutralElement.NE_NEITHER_ONE_NOR_ZERO), self1)
  else
    (Operator.Product
      (Operator.Power
        (Operator.Subtraction
          (Operator.DoubleConstant 1.0 NeutralElement.NE_ONE)
          (Operator.Power_Int (vm.clone self.argument) 2))
        (Operator.DoubleConstant (-0.5) NeutralElement.NE_NEITHER_ONE_NOR_ZERO))
      (vm.clone dargument), self1)

/-- `Operator* Asin::ADforwardProtected( dim, varType, component, seed, nNewIS, newIS )`.
`delete dargument` releases the previous cache and leaves no trace in the value model; the
assignment to `dargument` is the second component of the result, the index set left by the
call into the argument the third. -/
def Asin.ADforwardProtected (vm : VirtualMethods) (self : UnaryOperator) (dim : Int)
    (varType : List VariableType) (component : List Int) (seed : List Operator)
    (is : IndexSet) : Operator × UnaryOperator × IndexSet :=
  let r := vm.AD_forward self.argument dim varType component seed is
  let dargument := r.1
  let self1 : UnaryOperator := { self with dargument := some dargument }
  if vm.isOneOrZero dargument = NeutralElement.NE_ZERO then
    (Operator.DoubleConstant 0.0 NeutralElement.NE_ZERO, self1, r.2)
  else if vm.isOneOrZero dargument = NeutralElement.NE_ONE then
    (Operator.Power
      (Operator.Subtraction
        (Operator.DoubleConstant 1.0 NeutralElement.NE_ONE)
        (Operator.Power_Int (vm.clone self.argument) 2))
      (Operator.DoubleConstant (-0.5) NeutralElement.NE_NEITHER_ONE_NOR_ZERO), self1, r.2)
  else
    (Operator.Product
      (Operator.Power
        (Operator.Subtraction
          (Operator.DoubleConstant 1.0 NeutralElement.NE_ONE)
          (Operator.Power_Int (vm.clone self.argument) 2))
        (Operator.DoubleConstant (-0.5) NeutralElement.NE_NEITHER_ONE_NOR_ZERO))
      (vm.clone dargument), self1, r.2)

/-- `returnValue Asin::ADbackwardProtected( dim, varType, component, seed, df, nNewIS, newIS )`.
The status answered by `argument->AD_backward` is dropped, as in the source; `delete seed`
leaves no trace in the value model.  The result is the status, the array `df` and the index
set. -/
def Asin.ADbackwardProtected (vm : VirtualMethods) (self : UnaryOperator) (dim : Int)
    (varType : List VariableType) (component : List Int) (seed : Operator)
    (df : List Operator) (is : IndexSet) : returnValue × List Operator × IndexSet :=
  if vm.isOneOrZero seed = NeutralElement.NE_ZERO then
    let r := vm.AD_backward self.argument dim varType component
      (Operator.DoubleConstant 0.0 NeutralElement.NE_ZERO) df is
    (returnValue.SUCCESSFUL_RETURN, r.2)
  else if vm.isOneOrZero seed = NeutralElement.NE_ONE then
    let r := vm.AD_backward self.argument dim varType component
      (Operator.Power
        (Operator.Subtraction
          (Operator.DoubleConstant 1.0 NeutralElement.NE_ONE)
          (Operator.Power_Int (vm.clone self.argument) 2))
        (Operator.DoubleConstant (-0.5) NeutralElement.NE_NEITHER_ONE_NOR_ZERO)) df is
    (returnValue.SUCCESSFUL_RETURN, r.2)
  else
    let r := vm.AD_backward self.argument dim varType component
      (Operator.Product
        (Operator.Power
          (Operator.Subtraction
            (Operator.DoubleConstant 1.0 NeutralElement.NE_ONE)
            (Operator.Power_Int (vm.clone self.argument) 2))
          (Operator.DoubleConstant (-0.5) NeutralElement.NE_NEITHER_ONE_NOR_ZERO))
        (vm.clone seed)) df is
    (returnValue.SUCCESSFUL_RETURN, r.2)

/-! ## `logarithm.cpp` -/

/-- `Operator* Logarithm::differentiate( int index )`.  The `NE_ONE` test comes first.
The assignment to the member `dargument` is the second component of the result. -/
def Logarithm.differentiate (vm : VirtualMethods) (self : UnaryOperator) (index : Int) :
    Operator × UnaryOperator :=
  let dargument := vm.differentiate self.argument index
  let self1 : UnaryOperator := { self with dargument := some dargument }
  if vm.isOneOrZero dargument = NeutralElement.NE_ONE then
    (Operator.Power_Int (vm.clone self.argument) (-1), self1)
  else if vm.isOneOrZero dargument = NeutralElement.NE_ZERO then
    (Operator.DoubleConstant 0.0 NeutralElement.NE_ZERO, self1)
  else
    (Operator.Quotient (vm.clone dargument) (vm.clone self.argument), self1)

/-- `Operator* Logarithm::ADforwardProtected( dim, varType, component, seed, nNewIS, newIS )`.
The `NE_ZERO` test comes first. -/
def Logarithm.ADforwardProtected (vm : VirtualMethods) (self : UnaryOperator) (dim : Int)
    (varType : List VariableType) (component : List Int) (seed : List Operator)
    (is : IndexSet) : Operator × UnaryOperator × IndexSet :=
  let r := vm.AD_forward self.argument dim varType component seed is
  let dargument := r.1
  let self1 : UnaryOperator := { self with dargument := some dargument }
  if vm.isOneOrZero dargument = NeutralElement.NE_ZERO then
    (Operator.DoubleConstant 0.0 NeutralElement.NE_ZERO, self1, r.2)
  else if vm.isOneOrZero dargument = NeutralElement.NE_ONE then
    (Operator.Power_Int (vm.clone self.argument) (-1), self1, r.2)
  else
    (Operator.Quotient (vm.clone dargument) (vm.clone self.argument), self1, r.2)

/-- `returnValue Logarithm::ADbackwardProtected( dim, varType, component, seed, df, nNewIS,
newIS )`.  The status answered by `argument->AD_backward` is dropped, as in the source. -/
def Logarithm.ADbackwardProtected (vm : VirtualMethods) (self : UnaryOperator) (dim : Int)
    (varType : List VariableType) (component : List Int) (seed : Operator)
    (df : List Operator) (is : IndexSet) : returnValue × List Operator × IndexSet :=
  if vm.isOneOrZero seed = NeutralElement.NE_ZERO then
    let r := vm.AD_backward self.argument dim varType component
      (Operator.DoubleConstant 0.0 NeutralElement.NE_ZERO) df is
    (returnValue.SUCCESSFUL_RETURN, r.2)
  else if vm.isOneOrZero seed = NeutralElement.NE_ONE then
    let r := vm.AD_backward self.argument dim varType component
      (Operator.Power_Int (vm.clone self.argument) (-1)) df is
    (returnValue.SUCCESSFUL_RETURN, r.2)
  else
    let r := vm.AD_backward self.argument dim varType component
      (Operator.Quotient (vm.clone seed) (vm.clone self.argument)) df is
    (returnValue.SUCCESSFUL_RETURN, r.2)

/-- `CurvatureType Logarithm::getCurvature( )`.  The function is not `const`, so the node
after the call is the second component of the result; no statement of the body assigns a
member. -/
def Logarithm.getCurvature (vm : VirtualMethods) (self : UnaryOperator) :
    CurvatureType × UnaryOperator :=
  if self.curvature ≠ CurvatureType.CT_UNKNOWN then (self.curvature, self)
  else
    let cc := vm.getCurvature self.argument
    if cc = CurvatureType.CT_CONSTANT then (CurvatureType.CT_CONSTANT, self)
    else if cc = CurvatureType.CT_AFFINE then (CurvatureType.CT_CONCAVE, self)
    else if cc = CurvatureType.CT_CONCAVE then (CurvatureType.CT_CONCAVE, self)
    else (CurvatureType.CT_NEITHER_CONVEX_NOR_CONCAVE, self)

/-! ## Evaluation, symmetric AD and substitution -/

/-- The evaluation visitor (`EvaluationBase`) as far as the two files use it: the methods
`Asin` and `Log`, each taking the argument expression.  A method acts on the state `σ` of
the visitor; the two files discard whatever it returns. -/
structure EvaluationBase (σ : Type) where
  Asin : Operator → σ → σ
  Log : Operator → σ → σ

/-- The parameters of `ADsymmetricProtected` that it hands on to `ADsymCommon` untouched:
`dim, varType, component, l, S, dimS, dfS, ldf, H` and the three index sets
`(nNewLIS, newLIS)`, `(nNewSIS, newSIS)`, `(nNewHIS, newHIS)`. -/
structure SymArgs where
  dim : Int
  varType : List VariableType
  component : List Int
  l : Operator
  S : List Operator
  dimS : Int
  dfS : List Operator
  ldf : List Operator
  H : List Operator
  LIS : IndexSet
  SIS : IndexSet
  HIS : IndexSet

/-- `returnValue Asin::evaluate( EvaluationBase *x )`: `x->Asin(*argument)`, then
`SUCCESSFUL_RETURN`.  The second component is the visitor after the call. -/
def Asin.evaluate {σ : Type} (x : EvaluationBase σ) (self : UnaryOperator) (s : σ) :
    returnValue × σ :=
  let s1 := x.Asin self.argument s
  (returnValue.SUCCESSFUL_RETURN, s1)

/-- `returnValue Logarithm::evaluate( EvaluationBase *x )`: `x->Log(*argument)`, then
`SUCCESSFUL_RETURN`. -/
def Logarithm.evaluate {σ : Type} (x : EvaluationBase σ) (self : UnaryOperator) (s : σ) :
    returnValue × σ :=
  let s1 := x.Log self.argument s
  (returnValue.SUCCESSFUL_RETURN, s1)

/-- `returnValue Asin::ADsymmetricProtected( ... )`.  The two local `TreeProjection`s `tmp`
and `tmp2` are the expressions assigned to them.  `ADsymCommon` belongs to the base class
and is not in the two files: it is a parameter, and its answer type `ρ` collects the status
and everything it writes through its pointer and reference parameters. -/
def Asin.ADsymmetricProtected {ρ : Type}
    (ADsymCommon : Operator → Operator → Operator → SymArgs → ρ)
    (vm : VirtualMethods) (self : UnaryOperator) (args : SymArgs) : ρ :=
  let tmp :=
    Operator.Power
      (Operator.Addition
        (Operator.DoubleConstant 1.0 NeutralElement.NE_ONE)
        (Operator.Product
          (Operator.DoubleConstant (-1.0) NeutralElement.NE_NEITHER_ONE_NOR_ZERO)
          (Operator.Power_Int (vm.clone self.argument) 2)))
      (Operator.DoubleConstant (-0.5) NeutralElement.NE_NEITHER_ONE_NOR_ZERO)
  let tmp2 :=
    Operator.Product
      (Operator.Power
        (Operator.Addition
          (Operator.DoubleConstant 1.0 NeutralElement.NE_ONE)
          (Operator.Product
            (Operator.DoubleConstant (-1.0) NeutralElement.NE_NEITHER_ONE_NOR_ZERO)
            (Operator.Power_Int (vm.clone self.argument) 2)))
        (Operator.DoubleConstant (-1.5) NeutralElement.NE_NEITHER_ONE_NOR_ZERO))
      (vm.clone self.argument)
  ADsymCommon self.argument tmp tmp2 args

/-- `Operator* Asin::substitute( int index, const Operator *sub )`:
`new Asin( argument->substitute( index , sub ) )`.  No member is assigned; the second
component is the receiver after the call. -/
def Asin.substitute (vm : VirtualMethods) (self : UnaryOperator) (index : Int)
    (sub : Operator) : Operator × UnaryOperator :=
  (Operator.Asin (vm.substitute self.argument index sub), self)

/-- `returnValue Logarithm::ADsymmetricProtected( ... )`, with `ADsymCommon` as a parameter
as for `Asin`. -/
def Logarithm.ADsymmetricProtected {ρ : Type}
    (ADsymCommon : Operator → Operator → Operator → SymArgs → ρ)
    (vm : VirtualMethods) (self : UnaryOperator) (args : SymArgs) : ρ :=
  let tmp := Operator.Power_Int (vm.clone self.argument) (-1)
  let tmp2 :=
    Operator.Product
      (Operator.DoubleConstant (-1.0) NeutralElement.NE_NEITHER_ONE_NOR_ZERO)
      (Operator.Power_Int (vm.clone self.argument) (-2))
  ADsymCommon self.argument tmp tmp2 args

/-- `Operator* Logarithm::substitute( int index, const Operator *sub )`:
`new Logarithm( argument->substitute( index , sub ) )`. -/
def Logarithm.substitute (vm : VirtualMethods) (self : UnaryOperator) (index : Int)
    (sub : Operator) : Operator × UnaryOperator :=
  (Operator.Logarithm (vm.substitute self.argument index sub), self)

/-! ## Numeric meaning of expressions -/

/-- Modelled from the spec: the value of an expression at an evaluation point.  The
evaluation visitor that computes it is not part of the two files; each node kind has the
meaning its name and the derivative templates of the spec give it (`Power` is `pow`,
`Power_Int` an integer power, `Quotient` a division), `pow`, `asin` and `log` are the
libm functions, and `point` gives the value of every `Atom`. -/
def Operator.eval {α : Type} [Field α] (pow : α → α → α) (asin log : α → α)
    (point : Nat → α) : Operator → α
  | .DoubleConstant value _ => (value : α)
  | .Addition a b => eval pow asin log point a + eval pow asin log point b
  | .Subtraction a b => eval pow asin log point a - eval pow asin log point b
  | .Product a b => eval pow asin log point a * eval pow asin log point b
  | .Quotient a b => eval pow asin log point a / eval pow asin log point b
  | .Power a b => pow (eval pow asin log point a) (eval pow asin log point b)
  | .Power_Int a n => eval pow asin log point a ^ n
  | .Asin a => asin (eval pow asin log point a)
  | .Logarithm a => log (eval pow asin log point a)
  | .Atom id => point id

/-- The expression `e` evaluates to the real `x` at `point`: `Operator.eval` over the reals,
with the real power, arcsine and logarithm for the libm functions. -/
def Operator.evaluatesTo (point : Nat → ℝ) (e : Operator) (x : ℝ) : Prop :=
  Operator.eval (fun b y : ℝ => b ^ y) Real.arcsin Real.log point e = x

/-! ## Inputs for the concrete instances -/

/-- A table of virtual methods used as a concrete input: every `differentiate` and
`AD_forward` call answers `d`, `clone` copies, `isOneOrZero` reads the tag of a constant and
answers `NE_NEITHER_ONE_NOR_ZERO` for every other kind, `getCurvature` answers `c`,
`substitute` answers the receiver, and `AD_backward` answers a status other than success
after appending the adjoint it received to `df` and counting one new intermediate state. -/
def sampleMethods (d : Operator) (c : CurvatureType) : VirtualMethods where
  differentiate := fun _ _ => d
  clone := fun e => e
  isOneOrZero := fun e =>
    match e with
    | .DoubleConstant _ t => t
    | _ => NeutralElement.NE_NEITHER_ONE_NOR_ZERO
  getCurvature := fun _ => c
  substitute := fun e _ _ => e
  AD_forward := fun _ _ _ _ _ is => (d, is)
  AD_backward := fun _ _ _ _ s df is =>
    (returnValue.RET_OTHER 1, df ++ [s], { is with nNewIS := is.nNewIS + 1 })

/-- The table `vm` with every `differentiate` call answering `d`: the situation "the
derivative of the child is `d`". -/
def withDerivative (vm : VirtualMethods) (d : Operator) : VirtualMethods :=
  { vm with differentiate := fun _ _ => d }

/-- The outer-derivative template `(1 - arg^2)^(-0.5)` of `Asin` in the words of the
specification: `Power(Subtraction(Constant(1.0, One), Power_Int(a, 2)), Constant(-0.5, Neither))`.
The functions of `asin.cpp` above spell the expression out at every place, as the source
does; the theorems compare their results with this one. -/
def asinTemplate (a : Operator) : Operator :=
  Operator.Power
    (Operator.Subtraction (Operator.DoubleConstant 1.0 NeutralElement.NE_ONE)
      (Operator.Power_Int a 2))
    (Operator.DoubleConstant (-0.5) NeutralElement.NE_NEITHER_ONE_NOR_ZERO)

/-- A visitor used as a concrete input: its state is the list of the calls made on it, an
`Asin` call on `arg` written `Operator.Asin arg` and a `Log` call `Operator.Logarithm arg`. -/
def recordingVisitor : EvaluationBase (List Operator) where
  Asin := fun arg calls => calls ++ [Operator.Asin arg]
  Log := fun arg calls => calls ++ [Operator.Logarithm arg]

/-- The table `vm` with an `AD_backward` that appends the adjoint it receives to `df`. -/
def withRecordedAdjoint (vm : VirtualMethods) : VirtualMethods :=
  { vm with AD_backward := fun _ _ _ _ s df is => (returnValue.SUCCESSFUL_RETURN, df ++ [s], is) }

/-- Every `DoubleConstant` node of an expression, as value and tag, left to right. -/
def Operator.constants : Operator → List (ℚ × NeutralElement)
  | .DoubleConstant value t => [(value, t)]
  | .Addition a b => constants a ++ constants b
  | .Subtraction a b => constants a ++ constants b
  | .Product a b => constants a ++ constants b
  | .Quotient a b => constants a ++ constants b
  | .Power a b => constants a ++ constants b
  | .Power_Int a _ => constants a
  | .Asin a => constants a
  | .Logarithm a => constants a
  | .Atom _ => []

/-- A constant is soundly tagged: `NE_ZERO` exactly for the value `0`, `NE_ONE` exactly for
the value `1` (and so `NE_NEITHER_ONE_NOR_ZERO` exactly for every other value). -/
def tagSound (c : ℚ × NeutralElement) : Prop :=
  (c.2 = NeutralElement.NE_ZERO ↔ c.1 = 0) ∧ (c.2 = NeutralElement.NE_ONE ↔ c.1 = 1)

/-- Every constant of the expressions `es` is soundly tagged or is a constant of one of the
subexpressions `subtrees` (the clones the expressions were built over, whose constants were
created elsewhere). -/
def createdConstantsSound (es subtrees : List Operator) : Prop :=
  ∀ e ∈ es, ∀ c ∈ e.constants, tagSound c ∨ ∃ t ∈ subtrees, c ∈ t.constants

/-! ## Theorems -/

/-- The libm power with the constant `-0.5` as exponent is `1/sqrt` on positive reals. -/
theorem rpow_neg_half (y : ℝ) (hy : 0 < y) :
    y ^ (((-0.5 : ℚ) : ℝ)) = 1 / Real.sqrt y := by
  have e : (((-0.5 : ℚ) : ℝ)) = -(1 / 2) := by norm_num
  rw [e, Real.rpow_neg hy.le, Real.sqrt_eq_rpow]
  simp

/-- Inside the unit interval `1 - x^2` is positive. -/
theorem one_sub_sq_pos (x : ℝ) (hx : |x| < 1) : 0 < 1 - x ^ (2 : ℤ) := by
  have h := abs_lt.mp hx
  have e : x ^ (2 : ℤ) = x * x := by
    rw [zpow_ofNat]; ring
  rw [e]
  nlinarith [h.1, h.2]

/-- C1: chain rule for `Asin::differentiate`.  When the argument evaluates to `x` with
`|x| < 1`, its derivative `d` evaluates to `v`, the tag of `d` is sound and `clone` preserves
evaluation, the returned expression evaluates to `v / sqrt (1 - x^2)`, which is
`dAsin x * v`. -/
theorem Asin_differentiate_chain_rule (vm : VirtualMethods) (self : UnaryOperator)
    (index : Int) (point : Nat → ℝ) (x v : ℝ)
    (ha : self.argument.evaluatesTo point x) (hx : |x| < 1)
    (hd : (vm.differentiate self.argument index).evaluatesTo point v)
    (hzero : vm.isOneOrZero (vm.differentiate self.argument index) = NeutralElement.NE_ZERO →
      v = 0)
    (hone : vm.isOneOrZero (vm.differentiate self.argument index) = NeutralElement.NE_ONE →
      v = 1)
    (hclone : ∀ e y, e.evaluatesTo point y → (vm.clone e).evaluatesTo point y) :
    (Asin.differentiate vm self index).1.evaluatesTo point (v / Real.sqrt (1 - x ^ 2)) ∧
      v / Real.sqrt (1 - x ^ 2) = dAsin Real.sqrt x * v := by
  have hpos : 0 < 1 - x ^ (2 : ℤ) := one_sub_sq_pos x hx
  have hsq : x ^ (2 : ℤ) = x ^ 2 := by rw [zpow_ofNat]
  have hca := hclone _ _ ha
  have hcd := hclone _ _ hd
  simp only [Operator.evaluatesTo] at ha hd hca hcd
  constructor
  · simp only [Asin.differentiate, Operator.evaluatesTo]
    split_ifs with h0 h1
    · have e0 : (((0.0 : ℚ) : ℝ)) = 0 := by norm_num
      simp only [Operator.eval, hzero h0, e0, zero_div]
    · simp only [Operator.eval, hca, hone h1]
      have e1 : (((1.0 : ℚ) : ℝ)) = 1 := by norm_num
      rw [e1, rpow_neg_half _ hpos, hsq]
    · simp only [Operator.eval, hca, hcd]
      have e1 : (((1.0 : ℚ) : ℝ)) = 1 := by norm_num
      rw [e1, rpow_neg_half _ hpos, hsq]
      ring
  · simp only [dAsin]
    rw [show x * x = x ^ 2 by ring]
    ring

/-- Instance of C1 in the general branch: `asin` of the atom 0, whose derivative is the atom
1, at the point where atom 0 is `0` and every other atom is `3`. -/
theorem Asin_differentiate_chain_rule_witness :
    (Asin.differentiate (sampleMethods (.Atom 1) .CT_AFFINE)
        ⟨.Atom 0, none, .CT_UNKNOWN⟩ 0).1.evaluatesTo
        (fun k => if k = 0 then 0 else 3) (3 / Real.sqrt (1 - 0 ^ 2)) ∧
      (3 : ℝ) / Real.sqrt (1 - 0 ^ 2) = dAsin Real.sqrt 0 * 3 :=
  Asin_differentiate_chain_rule (sampleMethods (.Atom 1) .CT_AFFINE)
    ⟨.Atom 0, none, .CT_UNKNOWN⟩ 0 (fun k => if k = 0 then 0 else 3) 0 3
    (by simp [Operator.evaluatesTo, Operator.eval]) (by norm_num)
    (by simp [Operator.evaluatesTo, Operator.eval, sampleMethods])
    (by simp [sampleMethods]) (by simp [sampleMethods]) (fun _ _ h => h)

/-- C2: chain rule for `Logarithm::differentiate`.  When the argument evaluates to
`x ≠ 0`, its derivative `d` evaluates to `v`, the tag of `d` is sound and `clone` preserves
evaluation, the returned expression evaluates to `v / x`, which is `dLogarithm x * v`. -/
theorem Logarithm_differentiate_chain_rule (vm : VirtualMethods) (self : UnaryOperator)
    (index : Int) (point : Nat → ℝ) (x v : ℝ)
    (ha : self.argument.evaluatesTo point x) (hx : x ≠ 0)
    (hd : (vm.differentiate self.argument index).evaluatesTo point v)
    (hzero : vm.isOneOrZero (vm.differentiate self.argument index) = NeutralElement.NE_ZERO →
      v = 0)
    (hone : vm.isOneOrZero (vm.differentiate self.argument index) = NeutralElement.NE_ONE →
      v = 1)
    (hclone : ∀ e y, e.evaluatesTo point y → (vm.clone e).evaluatesTo point y) :
    (Logarithm.differentiate vm self index).1.evaluatesTo point (v / x) ∧
      v / x = dLogarithm x * v := by
  have hca := hclone _ _ ha
  have hcd := hclone _ _ hd
  simp only [Operator.evaluatesTo] at ha hd hca hcd
  constructor
  · simp only [Logarithm.differentiate, Operator.evaluatesTo]
    split_ifs with h1 h0
    · simp only [Operator.eval, hca, hone h1]
      rw [zpow_neg_one, one_div]
    · have e0 : (((0.0 : ℚ) : ℝ)) = 0 := by norm_num
      simp only [Operator.eval, hzero h0, e0, zero_div]
    · simp only [Operator.eval, hca, hcd]
  · simp only [dLogarithm]
    field_simp

/-- Instance of C2 in the quotient branch: `log` of the atom 0, whose derivative is the atom
1, at the point where atom 0 is `2` and every other atom is `3`. -/
theorem Logarithm_differentiate_chain_rule_witness :
    (Logarithm.differentiate (sampleMethods (.Atom 1) .CT_AFFINE)
        ⟨.Atom 0, none, .CT_UNKNOWN⟩ 0).1.evaluatesTo
        (fun k => if k = 0 then 2 else 3) (3 / 2) ∧
      (3 : ℝ) / 2 = dLogarithm 2 * 3 :=
  Logarithm_differentiate_chain_rule (sampleMethods (.Atom 1) .CT_AFFINE)
    ⟨.Atom 0, none, .CT_UNKNOWN⟩ 0 (fun k => if k = 0 then 2 else 3) 2 3
    (by simp [Operator.evaluatesTo, Operator.eval]) (by norm_num)
    (by simp [Operator.evaluatesTo, Operator.eval, sampleMethods])
    (by simp [sampleMethods]) (by simp [sampleMethods]) (fun _ _ h => h)

/-- C3: One shortcut of `Logarithm::differentiate`.  When the derivative of the argument is
tagged `NE_ONE`, the result is the single node `Power_Int(clone of argument, -1)`; it is
neither a `Product` nor a `Quotient` node. -/
theorem Logarithm_differentiate_one (vm : VirtualMethods) (self : UnaryOperator)
    (index : Int)
    (h : vm.isOneOrZero (vm.differentiate self.argument index) = NeutralElement.NE_ONE) :
    (Logarithm.differentiate vm self index).1 =
        Operator.Power_Int (vm.clone self.argument) (-1) ∧
      (∀ l r, (Logarithm.differentiate vm self index).1 ≠ Operator.Product l r) ∧
      (∀ l r, (Logarithm.differentiate vm self index).1 ≠ Operator.Quotient l r) := by
  have e : (Logarithm.differentiate vm self index).1 =
      Operator.Power_Int (vm.clone self.argument) (-1) := by
    simp [Logarithm.differentiate, h]
  refine ⟨e, ?_, ?_⟩ <;> intro l r <;> rw [e] <;> exact Operator.noConfusion

/-- Instance of C3: `log` of the atom 0 whose derivative is the constant one tagged
`NE_ONE` differentiates to `Power_Int(atom 0, -1)`. -/
theorem Logarithm_differentiate_one_witness :
    (Logarithm.differentiate
        (sampleMethods (.DoubleConstant 1.0 .NE_ONE) .CT_AFFINE)
        ⟨.Atom 0, none, .CT_UNKNOWN⟩ 0).1 = Operator.Power_Int (.Atom 0) (-1) :=
  (Logarithm_differentiate_one (sampleMethods (.DoubleConstant 1.0 .NE_ONE) .CT_AFFINE)
    ⟨.Atom 0, none, .CT_UNKNOWN⟩ 0 rfl).1

/-- C4: Zero shortcut of `Logarithm::differentiate`.  When the derivative of the argument
is tagged `NE_ZERO`, the result is the constant `0.0` tagged `NE_ZERO`; it is no
`Quotient`, `Product` or `Power_Int` node. -/
theorem Logarithm_differentiate_zero (vm : VirtualMethods) (self : UnaryOperator)
    (index : Int)
    (h : vm.isOneOrZero (vm.differentiate self.argument index) = NeutralElement.NE_ZERO) :
    (Logarithm.differentiate vm self index).1 =
        Operator.DoubleConstant 0.0 NeutralElement.NE_ZERO ∧
      (∀ l r, (Logarithm.differentiate vm self index).1 ≠ Operator.Quotient l r) ∧
      (∀ l r, (Logarithm.differentiate vm self index).1 ≠ Operator.Product l r) ∧
      (∀ b n, (Logarithm.differentiate vm self index).1 ≠ Operator.Power_Int b n) := by
  have e : (Logarithm.differentiate vm self index).1 =
      Operator.DoubleConstant 0.0 NeutralElement.NE_ZERO := by
    simp [Logarithm.differentiate, h]
  refine ⟨e, ?_, ?_, ?_⟩ <;> intro l r <;> rw [e] <;> exact Operator.noConfusion

/-- Instance of C4: `log` of the constant `2` whose derivative is the constant zero tagged
`NE_ZERO` differentiates to the zero constant. -/
theorem Logarithm_differentiate_zero_witness :
    (Logarithm.differentiate
        (sampleMethods (.DoubleConstant 0.0 .NE_ZERO) .CT_CONSTANT)
        ⟨.DoubleConstant 2 .NE_NEITHER_ONE_NOR_ZERO, none, .CT_UNKNOWN⟩ 3).1 =
      Operator.DoubleConstant 0.0 .NE_ZERO :=
  (Logarithm_differentiate_zero (sampleMethods (.DoubleConstant 0.0 .NE_ZERO) .CT_CONSTANT)
    ⟨.DoubleConstant 2 .NE_NEITHER_ONE_NOR_ZERO, none, .CT_UNKNOWN⟩ 3 rfl).1

/-- C5, as stated, fails: for `log` of the atom 0 whose derivative is the atom 1 (tagged
neither zero nor one) the result is `Quotient(atom 1, atom 0)`, which is not a `Product`
node. -/
theorem Logarithm_differentiate_general_not_product :
    (sampleMethods (.Atom 1) .CT_AFFINE).isOneOrZero
        ((sampleMethods (.Atom 1) .CT_AFFINE).differentiate (.Atom 0) 0) ≠ .NE_ZERO ∧
      (sampleMethods (.Atom 1) .CT_AFFINE).isOneOrZero
        ((sampleMethods (.Atom 1) .CT_AFFINE).differentiate (.Atom 0) 0) ≠ .NE_ONE ∧
      (Logarithm.differentiate (sampleMethods (.Atom 1) .CT_AFFINE)
        ⟨.Atom 0, none, .CT_UNKNOWN⟩ 0).1 = Operator.Quotient (.Atom 1) (.Atom 0) ∧
      (Logarithm.differentiate (sampleMethods (.Atom 1) .CT_AFFINE)
        ⟨.Atom 0, none, .CT_UNKNOWN⟩ 0).1 ≠
          Operator.Product (Operator.Power_Int (.Atom 0) (-1)) (.Atom 1) := by
  refine ⟨by simp [sampleMethods], by simp [sampleMethods], ?_, ?_⟩ <;>
    simp [Logarithm.differentiate, sampleMethods]

/-- C5, amended: when the derivative `d` of the argument is tagged neither `NE_ZERO` nor
`NE_ONE`, `Logarithm::differentiate` returns the node `Quotient(clone d, clone argument)`;
at every evaluation point it has the value of the product of the template
`Power_Int(clone argument, -1)` and `clone d`. -/
theorem Logarithm_differentiate_general (vm : VirtualMethods) (self : UnaryOperator)
    (index : Int)
    (h0 : vm.isOneOrZero (vm.differentiate self.argument index) ≠ NeutralElement.NE_ZERO)
    (h1 : vm.isOneOrZero (vm.differentiate self.argument index) ≠ NeutralElement.NE_ONE) :
    (Logarithm.differentiate vm self index).1 =
        Operator.Quotient (vm.clone (vm.differentiate self.argument index))
          (vm.clone self.argument) ∧
      ∀ (point : Nat → ℝ) (y : ℝ),
        (Operator.Product (Operator.Power_Int (vm.clone self.argument) (-1))
          (vm.clone (vm.differentiate self.argument index))).evaluatesTo point y →
        (Logarithm.differentiate vm self index).1.evaluatesTo point y := by
  have e : (Logarithm.differentiate vm self index).1 =
      Operator.Quotient (vm.clone (vm.differentiate self.argument index))
        (vm.clone self.argument) := by
    simp [Logarithm.differentiate, h0, h1]
  refine ⟨e, ?_⟩
  intro point y hy
  rw [e]
  simp only [Operator.evaluatesTo, Operator.eval] at hy ⊢
  rw [← hy, zpow_neg_one, div_eq_inv_mul]

/-- Instance of amended C5: `log` of the atom 0 whose derivative is the atom 1. -/
theorem Logarithm_differentiate_general_witness :
    (Logarithm.differentiate (sampleMethods (.Atom 1) .CT_AFFINE)
        ⟨.Atom 0, none, .CT_UNKNOWN⟩ 0).1 = Operator.Quotient (.Atom 1) (.Atom 0) :=
  (Logarithm_differentiate_general (sampleMethods (.Atom 1) .CT_AFFINE)
    ⟨.Atom 0, none, .CT_UNKNOWN⟩ 0 (by simp [sampleMethods]) (by simp [sampleMethods])).1

/-- C6: three-way branch of `Asin::differentiate`.  With `d` the derivative of the argument
and `T` the template over the clone of the argument, the result is the constant `0.0`
tagged `NE_ZERO` when `d` is tagged `NE_ZERO`, `T` when `d` is tagged `NE_ONE`, and
`Product(T, clone d)` otherwise. -/
theorem Asin_differentiate_three_way (vm : VirtualMethods) (self : UnaryOperator)
    (index : Int) :
    (vm.isOneOrZero (vm.differentiate self.argument index) = NeutralElement.NE_ZERO →
        (Asin.differentiate vm self index).1 =
          Operator.DoubleConstant 0.0 NeutralElement.NE_ZERO) ∧
      (vm.isOneOrZero (vm.differentiate self.argument index) = NeutralElement.NE_ONE →
        (Asin.differentiate vm self index).1 = asinTemplate (vm.clone self.argument)) ∧
      (vm.isOneOrZero (vm.differentiate self.argument index) ≠ NeutralElement.NE_ZERO →
        vm.isOneOrZero (vm.differentiate self.argument index) ≠ NeutralElement.NE_ONE →
        (Asin.differentiate vm self index).1 =
          Operator.Product (asinTemplate (vm.clone self.argument))
            (vm.clone (vm.differentiate self.argument index))) := by
  refine ⟨?_, ?_, ?_⟩
  · intro h
    simp [Asin.differentiate, h]
  · intro h
    simp [Asin.differentiate, h, asinTemplate]
  · intro h0 h1
    simp [Asin.differentiate, h0, h1, asinTemplate]

/-- Instance of C6, one input per branch: the derivative of the atom 0 is the zero
constant, the one constant, and the atom 1. -/
theorem Asin_differentiate_three_way_witness :
    (Asin.differentiate (sampleMethods (.DoubleConstant 0.0 .NE_ZERO) .CT_AFFINE)
        ⟨.Atom 0, none, .CT_UNKNOWN⟩ 0).1 = Operator.DoubleConstant 0.0 .NE_ZERO ∧
      (Asin.differentiate (sampleMethods (.DoubleConstant 1.0 .NE_ONE) .CT_AFFINE)
        ⟨.Atom 0, none, .CT_UNKNOWN⟩ 0).1 = asinTemplate (.Atom 0) ∧
      (Asin.differentiate (sampleMethods (.Atom 1) .CT_AFFINE)
        ⟨.Atom 0, none, .CT_UNKNOWN⟩ 0).1 =
          Operator.Product (asinTemplate (.Atom 0)) (.Atom 1) :=
  ⟨(Asin_differentiate_three_way (sampleMethods (.DoubleConstant 0.0 .NE_ZERO) .CT_AFFINE)
      ⟨.Atom 0, none, .CT_UNKNOWN⟩ 0).1 rfl,
    (Asin_differentiate_three_way (sampleMethods (.DoubleConstant 1.0 .NE_ONE) .CT_AFFINE)
      ⟨.Atom 0, none, .CT_UNKNOWN⟩ 0).2.1 rfl,
    (Asin_differentiate_three_way (sampleMethods (.Atom 1) .CT_AFFINE)
      ⟨.Atom 0, none, .CT_UNKNOWN⟩ 0).2.2 (by simp [sampleMethods])
      (by simp [sampleMethods])⟩

/-- C7: rule table of `Logarithm::getCurvature` on a node whose cached curvature is
unknown: `CT_CONSTANT` for a constant argument, `CT_CONCAVE` for an affine and for a concave
argument, `CT_NEITHER_CONVEX_NOR_CONCAVE` for every other argument curvature; the answer is
never `CT_CONVEX` and never `CT_AFFINE`. -/
theorem Logarithm_getCurvature_table (vm : VirtualMethods) (self : UnaryOperator)
    (hu : self.curvature = CurvatureType.CT_UNKNOWN) :
    (vm.getCurvature self.argument = CurvatureType.CT_CONSTANT →
        (Logarithm.getCurvature vm self).1 = CurvatureType.CT_CONSTANT) ∧
      (vm.getCurvature self.argument = CurvatureType.CT_AFFINE →
        (Logarithm.getCurvature vm self).1 = CurvatureType.CT_CONCAVE) ∧
      (vm.getCurvature self.argument = CurvatureType.CT_CONCAVE →
        (Logarithm.getCurvature vm self).1 = CurvatureType.CT_CONCAVE) ∧
      (vm.getCurvature self.argument ≠ CurvatureType.CT_CONSTANT →
        vm.getCurvature self.argument ≠ CurvatureType.CT_AFFINE →
        vm.getCurvature self.argument ≠ CurvatureType.CT_CONCAVE →
        (Logarithm.getCurvature vm self).1 = CurvatureType.CT_NEITHER_CONVEX_NOR_CONCAVE) ∧
      (Logarithm.getCurvature vm self).1 ≠ CurvatureType.CT_CONVEX ∧
      (Logarithm.getCurvature vm self).1 ≠ CurvatureType.CT_AFFINE := by
  refine ⟨?_, ?_, ?_, ?_, ?_, ?_⟩
  · intro h
    simp [Logarithm.getCurvature, hu, h]
  · intro h
    simp [Logarithm.getCurvature, hu, h]
  · intro h
    simp [Logarithm.getCurvature, hu, h]
  · intro h1 h2 h3
    simp [Logarithm.getCurvature, hu, h1, h2, h3]
  · simp only [Logarithm.getCurvature, hu]
    split_ifs <;> simp_all
  · simp only [Logarithm.getCurvature, hu]
    split_ifs <;> simp_all

/-- Instance of C7: the logarithm of a convex argument reports
`CT_NEITHER_CONVEX_NOR_CONCAVE`. -/
theorem Logarithm_getCurvature_table_witness :
    (Logarithm.getCurvature (sampleMethods (.Atom 1) .CT_CONVEX)
        ⟨.Atom 0, none, .CT_UNKNOWN⟩).1 = CurvatureType.CT_NEITHER_CONVEX_NOR_CONCAVE :=
  (Logarithm_getCurvature_table (sampleMethods (.Atom 1) .CT_CONVEX)
    ⟨.Atom 0, none, .CT_UNKNOWN⟩ rfl).2.2.2.1 (by simp [sampleMethods])
    (by simp [sampleMethods]) (by simp [sampleMethods])

/-- C8, as stated, fails: on the node `log(atom 0)` with unknown cached curvature and an
affine argument, `getCurvature` answers `CT_CONCAVE` but the cached curvature of the node
after the call is still `CT_UNKNOWN`, and a second call made when the argument reports
`CT_CONVEX` answers `CT_NEITHER_CONVEX_NOR_CONCAVE`, not the class answered first. -/
theorem Logarithm_getCurvature_not_memoized :
    (Logarithm.getCurvature (sampleMethods (.Atom 1) .CT_AFFINE)
        ⟨.Atom 0, none, .CT_UNKNOWN⟩).1 = CurvatureType.CT_CONCAVE ∧
      (Logarithm.getCurvature (sampleMethods (.Atom 1) .CT_AFFINE)
        ⟨.Atom 0, none, .CT_UNKNOWN⟩).2.curvature = CurvatureType.CT_UNKNOWN ∧
      (Logarithm.getCurvature (sampleMethods (.Atom 1) .CT_CONVEX)
        (Logarithm.getCurvature (sampleMethods (.Atom 1) .CT_AFFINE)
          ⟨.Atom 0, none, .CT_UNKNOWN⟩).2).1 =
        CurvatureType.CT_NEITHER_CONVEX_NOR_CONCAVE ∧
      (Logarithm.getCurvature (sampleMethods (.Atom 1) .CT_CONVEX)
        (Logarithm.getCurvature (sampleMethods (.Atom 1) .CT_AFFINE)
          ⟨.Atom 0, none, .CT_UNKNOWN⟩).2).1 ≠
        (Logarithm.getCurvature (sampleMethods (.Atom 1) .CT_AFFINE)
          ⟨.Atom 0, none, .CT_UNKNOWN⟩).1 := by
  simp [Logarithm.getCurvature, sampleMethods]

/-- C8, amended: `getCurvature` never assigns the cached curvature.  The node after a call
is the node before it, so after a call on a node whose cache is unknown the cache is still
unknown and a second call answers what a first call would answer for the curvature the
argument reports at that time; a cached curvature that is set (not unknown) is returned
without consulting the argument. -/
theorem Logarithm_getCurvature_cache (vm vm2 : VirtualMethods) (self : UnaryOperator) :
    (Logarithm.getCurvature vm self).2 = self ∧
      Logarithm.getCurvature vm2 (Logarithm.getCurvature vm self).2 =
        Logarithm.getCurvature vm2 self ∧
      (self.curvature ≠ CurvatureType.CT_UNKNOWN →
        (Logarithm.getCurvature vm self).1 = self.curvature ∧
        (Logarithm.getCurvature vm2 (Logarithm.getCurvature vm self).2).1 =
          (Logarithm.getCurvature vm self).1) := by
  have e : (Logarithm.getCurvature vm self).2 = self := by
    simp only [Logarithm.getCurvature]
    split_ifs <;> rfl
  refine ⟨e, by rw [e], ?_⟩
  intro h
  rw [e]
  simp [Logarithm.getCurvature, h]

/-- Instance of amended C8: a node whose cached curvature is `CT_CONVEX` answers
`CT_CONVEX` on both calls, whatever the argument reports. -/
theorem Logarithm_getCurvature_cache_witness :
    (Logarithm.getCurvature (sampleMethods (.Atom 1) .CT_AFFINE)
        ⟨.Atom 0, none, .CT_CONVEX⟩).1 = CurvatureType.CT_CONVEX ∧
      (Logarithm.getCurvature (sampleMethods (.Atom 1) .CT_CONSTANT)
        (Logarithm.getCurvature (sampleMethods (.Atom 1) .CT_AFFINE)
          ⟨.Atom 0, none, .CT_CONVEX⟩).2).1 =
        (Logarithm.getCurvature (sampleMethods (.Atom 1) .CT_AFFINE)
          ⟨.Atom 0, none, .CT_CONVEX⟩).1 :=
  (Logarithm_getCurvature_cache (sampleMethods (.Atom 1) .CT_AFFINE)
    (sampleMethods (.Atom 1) .CT_CONSTANT) ⟨.Atom 0, none, .CT_CONVEX⟩).2.2 (by decide)

/-- C9: reverse mode.  `ADbackwardProtected` of `Asin` and of `Logarithm` answers
`SUCCESSFUL_RETURN` and leaves `df` and the index set as one call of the argument's
`AD_backward` leaves them, for whatever tag of the seed `s`; the adjoint handed to that call
is the expression `differentiate` of the same kind returns when the derivative of the child
is `s`: the zero constant for `s` tagged `NE_ZERO`, the template for `s` tagged `NE_ONE`,
and otherwise `Product(template, clone s)` for `Asin` and `Quotient(clone s, clone a)` for
`Logarithm`.  Against the recording table `sampleMethods`, whose `AD_backward` appends the
adjoint it receives to `df` and counts one new intermediate state, `df` grows by exactly
that one adjoint and the count by exactly one. -/
theorem ADbackwardProtected_three_way (vm : VirtualMethods) (self : UnaryOperator)
    (dim : Int) (varType : List VariableType) (component : List Int) (s : Operator)
    (df : List Operator) (is : IndexSet) (index : Int) :
    (Asin.ADbackwardProtected vm self dim varType component s df is =
        (returnValue.SUCCESSFUL_RETURN,
          (vm.AD_backward self.argument dim varType component
            (Asin.differentiate (withDerivative vm s) self index).1 df is).2)) ∧
      (Logarithm.ADbackwardProtected vm self dim varType component s df is =
        (returnValue.SUCCESSFUL_RETURN,
          (vm.AD_backward self.argument dim varType component
            (Logarithm.differentiate (withDerivative vm s) self index).1 df is).2)) ∧
      (Asin.differentiate (withDerivative vm s) self index).1 =
        (if vm.isOneOrZero s = NeutralElement.NE_ZERO then
          Operator.DoubleConstant 0.0 NeutralElement.NE_ZERO
        else if vm.isOneOrZero s = NeutralElement.NE_ONE then
          asinTemplate (vm.clone self.argument)
        else Operator.Product (asinTemplate (vm.clone self.argument)) (vm.clone s)) ∧
      (Logarithm.differentiate (withDerivative vm s) self index).1 =
        (if vm.isOneOrZero s = NeutralElement.NE_ZERO then
          Operator.DoubleConstant 0.0 NeutralElement.NE_ZERO
        else if vm.isOneOrZero s = NeutralElement.NE_ONE then
          Operator.Power_Int (vm.clone self.argument) (-1)
        else Operator.Quotient (vm.clone s) (vm.clone self.argument)) ∧
      (∀ (d : Operator) (c : CurvatureType),
        Asin.ADbackwardProtected (sampleMethods d c) self dim varType component s df is =
          (returnValue.SUCCESSFUL_RETURN,
            df ++ [(Asin.differentiate (sampleMethods s c) self index).1],
            { is with nNewIS := is.nNewIS + 1 }) ∧
        Logarithm.ADbackwardProtected (sampleMethods d c) self dim varType component s df is =
          (returnValue.SUCCESSFUL_RETURN,
            df ++ [(Logarithm.differentiate (sampleMethods s c) self index).1],
            { is with nNewIS := is.nNewIS + 1 })) := by
  refine ⟨?_, ?_, ?_, ?_, ?_⟩
  · simp only [Asin.ADbackwardProtected, Asin.differentiate, withDerivative]
    split_ifs <;> rfl
  · simp only [Logarithm.ADbackwardProtected, Logarithm.differentiate, withDerivative]
    split_ifs <;> simp_all
  · simp only [Asin.differentiate, withDerivative, asinTemplate]
    split_ifs <;> rfl
  · simp only [Logarithm.differentiate, withDerivative]
    split_ifs <;> simp_all
  · intro d c
    constructor
    · simp only [Asin.ADbackwardProtected, Asin.differentiate, sampleMethods]
      split_ifs <;> rfl
    · simp only [Logarithm.ADbackwardProtected, Logarithm.differentiate, sampleMethods]
      split_ifs <;> simp_all

/-- C10: forward mode and plain differentiation build the same expression.  When the
argument's `AD_forward` and its `differentiate` both yield `d`, `ADforwardProtected` and
`differentiate` return the same expression, for `Asin` and for `Logarithm`. -/
theorem ADforwardProtected_eq_differentiate (vm : VirtualMethods) (self : UnaryOperator)
    (dim : Int) (varType : List VariableType) (component : List Int)
    (seed : List Operator) (is : IndexSet) (index : Int) (d : Operator)
    (hf : (vm.AD_forward self.argument dim varType component seed is).1 = d)
    (hd : vm.differentiate self.argument index = d) :
    (Asin.ADforwardProtected vm self dim varType component seed is).1 =
        (Asin.differentiate vm self index).1 ∧
      (Logarithm.ADforwardProtected vm self dim varType component seed is).1 =
        (Logarithm.differentiate vm self index).1 := by
  constructor
  · simp only [Asin.ADforwardProtected, Asin.differentiate, hf, hd]
    split_ifs <;> rfl
  · simp only [Logarithm.ADforwardProtected, Logarithm.differentiate, hf, hd]
    split_ifs <;> simp_all

/-- Instance of C10 with a derivative tagged `NE_ONE`: both modes return the template. -/
theorem ADforwardProtected_eq_differentiate_witness :
    (Asin.ADforwardProtected (sampleMethods (.DoubleConstant 1.0 .NE_ONE) .CT_AFFINE)
        ⟨.Atom 0, none, .CT_UNKNOWN⟩ 1 [0] [0] [.Atom 5] ⟨0, []⟩).1 =
        (Asin.differentiate (sampleMethods (.DoubleConstant 1.0 .NE_ONE) .CT_AFFINE)
          ⟨.Atom 0, none, .CT_UNKNOWN⟩ 0).1 ∧
      (Logarithm.ADforwardProtected (sampleMethods (.DoubleConstant 1.0 .NE_ONE) .CT_AFFINE)
        ⟨.Atom 0, none, .CT_UNKNOWN⟩ 1 [0] [0] [.Atom 5] ⟨0, []⟩).1 =
        (Logarithm.differentiate (sampleMethods (.DoubleConstant 1.0 .NE_ONE) .CT_AFFINE)
          ⟨.Atom 0, none, .CT_UNKNOWN⟩ 0).1 :=
  ADforwardProtected_eq_differentiate (sampleMethods (.DoubleConstant 1.0 .NE_ONE) .CT_AFFINE)
    ⟨.Atom 0, none, .CT_UNKNOWN⟩ 1 [0] [0] [.Atom 5] ⟨0, []⟩ 0
    (.DoubleConstant 1.0 .NE_ONE) rfl rfl

/-- C11: derivative cache after forward AD.  After `ADforwardProtected` of `Asin` and of
`Logarithm` the member `dargument` holds the expression the argument's `AD_forward` returned
for this call, whatever it held before and whichever branch is taken; `argument` and
`curvature` are as before. -/
theorem ADforwardProtected_dargument (vm : VirtualMethods) (self : UnaryOperator)
    (dim : Int) (varType : List VariableType) (component : List Int)
    (seed : List Operator) (is : IndexSet) :
    (Asin.ADforwardProtected vm self dim varType component seed is).2.1 =
        { self with
          dargument := some (vm.AD_forward self.argument dim varType component seed is).1 } ∧
      (Logarithm.ADforwardProtected vm self dim varType component seed is).2.1 =
        { self with
          dargument := some (vm.AD_forward self.argument dim varType component seed is).1 } ∧
      (∀ old : Option Operator,
        (Asin.ADforwardProtected vm { self with dargument := old } dim varType component
            seed is).2.1.dargument =
          some (vm.AD_forward self.argument dim varType component seed is).1 ∧
        (Logarithm.ADforwardProtected vm { self with dargument := old } dim varType component
            seed is).2.1.dargument =
          some (vm.AD_forward self.argument dim varType component seed is).1) := by
  refine ⟨?_, ?_, fun old => ⟨?_, ?_⟩⟩
  · simp only [Asin.ADforwardProtected]
    split_ifs <;> rfl
  · simp only [Logarithm.ADforwardProtected]
    split_ifs <;> rfl
  · simp only [Asin.ADforwardProtected]
    split_ifs <;> rfl
  · simp only [Logarithm.ADforwardProtected]
    split_ifs <;> rfl

/-- C12, as stated, fails: on the node `asin(atom 0)` resp. `log(atom 0)`, forward AD leaves
the atom 1 in `dargument`; a `differentiate` call whose child derivative is the atom 2 then
leaves the atom 2 there, so the node is changed and the forward-AD subtree is gone. -/
theorem differentiate_not_pure :
    (Asin.ADforwardProtected (withDerivative (sampleMethods (.Atom 1) .CT_AFFINE) (.Atom 2))
        ⟨.Atom 0, none, .CT_UNKNOWN⟩ 1 [0] [0] [.Atom 5] ⟨0, []⟩).2.1 =
        ⟨.Atom 0, some (.Atom 1), .CT_UNKNOWN⟩ ∧
      (Asin.differentiate (withDerivative (sampleMethods (.Atom 1) .CT_AFFINE) (.Atom 2))
        ⟨.Atom 0, some (.Atom 1), .CT_UNKNOWN⟩ 0).2 =
        ⟨.Atom 0, some (.Atom 2), .CT_UNKNOWN⟩ ∧
      (Asin.differentiate (withDerivative (sampleMethods (.Atom 1) .CT_AFFINE) (.Atom 2))
        ⟨.Atom 0, some (.Atom 1), .CT_UNKNOWN⟩ 0).2 ≠
        ⟨.Atom 0, some (.Atom 1), .CT_UNKNOWN⟩ ∧
      (Logarithm.ADforwardProtected
        (withDerivative (sampleMethods (.Atom 1) .CT_AFFINE) (.Atom 2))
        ⟨.Atom 0, none, .CT_UNKNOWN⟩ 1 [0] [0] [.Atom 5] ⟨0, []⟩).2.1 =
        ⟨.Atom 0, some (.Atom 1), .CT_UNKNOWN⟩ ∧
      (Logarithm.differentiate (withDerivative (sampleMethods (.Atom 1) .CT_AFFINE) (.Atom 2))
        ⟨.Atom 0, some (.Atom 1), .CT_UNKNOWN⟩ 0).2 ≠
        ⟨.Atom 0, some (.Atom 1), .CT_UNKNOWN⟩ := by
  simp [Asin.ADforwardProtected, Asin.differentiate, Logarithm.ADforwardProtected,
    Logarithm.differentiate, withDerivative, sampleMethods]

/-- C12, amended: `differentiate` of `Asin` and of `Logarithm` assigns exactly one member.
The node after the call is the node before it with `dargument` replaced by the expression
the argument's `differentiate(index)` returned; `argument` and `curvature` are unchanged. -/
theorem differentiate_assigns_dargument (vm : VirtualMethods) (self : UnaryOperator)
    (index : Int) :
    (Asin.differentiate vm self index).2 =
        { self with dargument := some (vm.differentiate self.argument index) } ∧
      (Logarithm.differentiate vm self index).2 =
        { self with dargument := some (vm.differentiate self.argument index) } := by
  constructor
  · simp only [Asin.differentiate]
    split_ifs <;> rfl
  · simp only [Logarithm.differentiate]
    split_ifs <;> rfl

/-- The libm power with the constant `-1.5` as exponent is `1/sqrt^3` on positive reals. -/
theorem rpow_neg_three_halves (y : ℝ) (hy : 0 < y) :
    y ^ (((-1.5 : ℚ) : ℝ)) = 1 / Real.sqrt y ^ 3 := by
  have e : (((-1.5 : ℚ) : ℝ)) = -(3 / 2) := by norm_num
  rw [e, Real.rpow_neg hy.le, Real.sqrt_eq_rpow, ← Real.rpow_natCast, ← Real.rpow_mul hy.le]
  norm_num

/-- C13: second-derivative template of `Asin`.  When the argument evaluates to `x` with
`|x| < 1` and `clone` preserves evaluation, the template `tmp2` that
`Asin::ADsymmetricProtected` hands to `ADsymCommon` evaluates to `x * (1 - x^2)^(-3/2)`,
which is `ddAsin x`. -/
theorem Asin_ADsymmetricProtected_tmp2 (vm : VirtualMethods) (self : UnaryOperator)
    (args : SymArgs) (point : Nat → ℝ) (x : ℝ)
    (ha : self.argument.evaluatesTo point x) (hx : |x| < 1)
    (hclone : ∀ e y, e.evaluatesTo point y → (vm.clone e).evaluatesTo point y) :
    (Asin.ADsymmetricProtected (fun _ _ tmp2 _ => tmp2) vm self args).evaluatesTo point
        (x * (1 - x ^ 2) ^ (-(3 / 2) : ℝ)) ∧
      x * (1 - x ^ 2) ^ (-(3 / 2) : ℝ) = ddAsin Real.sqrt x := by
  have hpos : 0 < 1 - x ^ (2 : ℤ) := one_sub_sq_pos x hx
  have hsq : x ^ (2 : ℤ) = x ^ 2 := by rw [zpow_ofNat]
  rw [hsq] at hpos
  have hca := hclone _ _ ha
  simp only [Operator.evaluatesTo] at ha hca
  have e15 : (-(3 / 2) : ℝ) = (((-1.5 : ℚ) : ℝ)) := by norm_num
  have hv : Real.sqrt (1 - x ^ 2) ≠ 0 := ne_of_gt (Real.sqrt_pos.mpr hpos)
  constructor
  · simp only [Asin.ADsymmetricProtected, Operator.evaluatesTo, Operator.eval, hca]
    have e1 : (((1.0 : ℚ) : ℝ)) = 1 := by norm_num
    have e2 : (((-1.0 : ℚ) : ℝ)) = -1 := by norm_num
    rw [e1, e2, hsq, e15, show (1 : ℝ) + -1 * x ^ 2 = 1 - x ^ 2 by ring]
    ring
  · rw [e15, rpow_neg_three_halves _ hpos]
    simp only [ddAsin]
    rw [show x * x = x ^ 2 by ring]
    generalize Real.sqrt (1 - x ^ 2) = v at hv
    field_simp
    ring

/-- Instance of C13: `asin` of the atom 0 at the point where every atom is `0`. -/
theorem Asin_ADsymmetricProtected_tmp2_witness :
    (Asin.ADsymmetricProtected (fun _ _ tmp2 _ => tmp2) (sampleMethods (.Atom 1) .CT_AFFINE)
        ⟨.Atom 0, none, .CT_UNKNOWN⟩
        ⟨1, [0], [0], .Atom 2, [.Atom 3], 1, [], [], [], ⟨0, []⟩, ⟨0, []⟩, ⟨0, []⟩⟩).evaluatesTo
        (fun _ => 0) (0 * (1 - 0 ^ 2) ^ (-(3 / 2) : ℝ)) ∧
      (0 : ℝ) * (1 - 0 ^ 2) ^ (-(3 / 2) : ℝ) = ddAsin Real.sqrt 0 :=
  Asin_ADsymmetricProtected_tmp2 (sampleMethods (.Atom 1) .CT_AFFINE)
    ⟨.Atom 0, none, .CT_UNKNOWN⟩
    ⟨1, [0], [0], .Atom 2, [.Atom 3], 1, [], [], [], ⟨0, []⟩, ⟨0, []⟩, ⟨0, []⟩⟩ (fun _ => 0) 0
    (by simp [Operator.evaluatesTo, Operator.eval]) (by norm_num) (fun _ _ h => h)

/-- C14: `dAsin` is the derivative of the arcsine.  For every real `x` with `|x| < 1`,
`dAsin x` is the derivative of `arcsin` at `x`; `dAsin 0 = 1`, and `dAsin 0.5 = 2/sqrt 3`,
which lies within `0.0001` of `1.1547`. -/
theorem dAsin_is_derivative_of_arcsin :
    (∀ x : ℝ, |x| < 1 → HasDerivAt Real.arcsin (dAsin Real.sqrt x) x) ∧
      dAsin Real.sqrt (0 : ℝ) = 1 ∧
      dAsin Real.sqrt (0.5 : ℝ) = 2 / Real.sqrt 3 ∧
      |dAsin Real.sqrt (0.5 : ℝ) - 1.1547| < 0.0001 := by
  have h3 : dAsin Real.sqrt (0.5 : ℝ) = 2 / Real.sqrt 3 := by
    simp only [dAsin]
    have e : (1 - 0.5 * 0.5 : ℝ) = 3 / 4 := by norm_num
    have e4 : Real.sqrt 4 = 2 := by
      rw [show (4 : ℝ) = 2 ^ 2 by norm_num]
      exact Real.sqrt_sq (by norm_num)
    rw [e, Real.sqrt_div (by norm_num), e4, one_div_div]
  refine ⟨?_, ?_, h3, ?_⟩
  · intro x hx
    have h := abs_lt.mp hx
    have hd := Real.hasDerivAt_arcsin (ne_of_gt h.1) (ne_of_lt h.2)
    simp only [dAsin]
    rw [show x * x = x ^ 2 by ring]
    exact hd
  · simp [dAsin]
  · rw [h3]
    have hpos : (0 : ℝ) < Real.sqrt 3 := Real.sqrt_pos.mpr (by norm_num)
    have hlo : (1.7320 : ℝ) < Real.sqrt 3 := (Real.lt_sqrt (by norm_num)).mpr (by norm_num)
    have hhi : Real.sqrt 3 < (1.7321 : ℝ) := (Real.sqrt_lt' (by norm_num)).mpr (by norm_num)
    rw [abs_lt]
    constructor
    · rw [lt_sub_iff_add_lt, lt_div_iff₀ hpos]
      linarith
    · rw [sub_lt_iff_lt_add, div_lt_iff₀ hpos]
      linarith

/-- Instance of C14 at `x = 0`: the derivative of `arcsin` at `0` is `dAsin 0`. -/
theorem dAsin_is_derivative_of_arcsin_witness :
    HasDerivAt Real.arcsin (dAsin Real.sqrt (0 : ℝ)) 0 :=
  dAsin_is_derivative_of_arcsin.1 0 (by norm_num)

/-- C15: second-derivative consistency for the arcsine.  For every real `x` with `|x| < 1`,
`ddAsin x` is the derivative at `x` of `dAsin`, that is the limit at `x` of the difference
quotients of `dAsin`. -/
theorem ddAsin_is_derivative_of_dAsin (x : ℝ) (hx : |x| < 1) :
    HasDerivAt (fun y : ℝ => dAsin Real.sqrt y) (ddAsin Real.sqrt x) x ∧
      Filter.Tendsto (slope (fun y : ℝ => dAsin Real.sqrt y) x) (nhdsWithin x {x}ᶜ)
        (nhds (ddAsin Real.sqrt x)) := by
  have h := abs_lt.mp hx
  have hpos : 0 < 1 - x * x := by nlinarith [h.1, h.2]
  have hv : Real.sqrt (1 - x * x) ≠ 0 := ne_of_gt (Real.sqrt_pos.mpr hpos)
  have h1 : HasDerivAt (fun y : ℝ => 1 - y * y) (-(2 * x)) x := by
    have h0 := ((hasDerivAt_id x).mul (hasDerivAt_id x)).const_sub 1
    simp only [id] at h0
    convert h0 using 1
    ring
  have h2 := (h1.sqrt (ne_of_gt hpos)).inv hv
  have hD : HasDerivAt (fun y : ℝ => dAsin Real.sqrt y) (ddAsin Real.sqrt x) x := by
    have ef : (fun y : ℝ => dAsin Real.sqrt y) = fun y => (Real.sqrt (1 - y * y))⁻¹ := by
      funext y
      simp [dAsin]
    rw [ef]
    convert h2 using 1
    simp only [ddAsin]
    generalize Real.sqrt (1 - x * x) = v at hv
    field_simp
    ring
  exact ⟨hD, hasDerivAt_iff_tendsto_slope.mp hD⟩

/-- Instance of C15 at `x = 0`. -/
theorem ddAsin_is_derivative_of_dAsin_witness :
    HasDerivAt (fun y : ℝ => dAsin Real.sqrt y) (ddAsin Real.sqrt (0 : ℝ)) 0 :=
  (ddAsin_is_derivative_of_dAsin 0 (by norm_num)).1

/-- C16: substitution.  `substitute` of `Asin` and of `Logarithm` returns a node of the same
kind over the substituted argument and leaves the receiver as it was; when substituting in
the argument gives back the argument, the result is the original node, and so has the value
of the original node under every interpretation of the libm functions and every point. -/
theorem substitute_same_kind (vm : VirtualMethods) (self : UnaryOperator) (index : Int)
    (sub : Operator) :
    (Asin.substitute vm self index sub).1 =
        Operator.Asin (vm.substitute self.argument index sub) ∧
      (Asin.substitute vm self index sub).2 = self ∧
      (Logarithm.substitute vm self index sub).1 =
        Operator.Logarithm (vm.substitute self.argument index sub) ∧
      (Logarithm.substitute vm self index sub).2 = self ∧
      (vm.substitute self.argument index sub = self.argument →
        (Asin.substitute vm self index sub).1 = Operator.Asin self.argument ∧
        (Logarithm.substitute vm self index sub).1 = Operator.Logarithm self.argument ∧
        ∀ (pow : ℝ → ℝ → ℝ) (asin log : ℝ → ℝ) (point : Nat → ℝ),
          Operator.eval pow asin log point (Asin.substitute vm self index sub).1 =
            Operator.eval pow asin log point (Operator.Asin self.argument) ∧
          Operator.eval pow asin log point (Logarithm.substitute vm self index sub).1 =
            Operator.eval pow asin log point (Operator.Logarithm self.argument)) := by
  refine ⟨rfl, rfl, rfl, rfl, ?_⟩
  intro h
  have ea : (Asin.substitute vm self index sub).1 = Operator.Asin self.argument := by
    simp only [Asin.substitute, h]
  have el : (Logarithm.substitute vm self index sub).1 = Operator.Logarithm self.argument := by
    simp only [Logarithm.substitute, h]
  refine ⟨ea, el, ?_⟩
  intro pow asin log point
  rw [ea, el]
  exact ⟨rfl, rfl⟩

/-- Instance of C16: substituting in `asin(atom 0)` with a table whose `substitute` gives
back the receiver returns `asin(atom 0)`. -/
theorem substitute_same_kind_witness :
    (Asin.substitute (sampleMethods (.Atom 1) .CT_AFFINE) ⟨.Atom 0, none, .CT_UNKNOWN⟩ 3
        (.Atom 7)).1 = Operator.Asin (.Atom 0) :=
  ((substitute_same_kind (sampleMethods (.Atom 1) .CT_AFFINE) ⟨.Atom 0, none, .CT_UNKNOWN⟩ 3
    (.Atom 7)).2.2.2.2 rfl).1

/-- C17: evaluation dispatch.  For every visitor, `Asin::evaluate` leaves the visitor as
one call of its `Asin` method on the argument leaves it and `Logarithm::evaluate` as one
call of its `Log` method does, and both answer `SUCCESSFUL_RETURN`; against the recording
visitor exactly that one call is added to the calls made so far. -/
theorem evaluate_dispatch {σ : Type} (x : EvaluationBase σ) (self : UnaryOperator) (s : σ)
    (calls : List Operator) :
    Asin.evaluate x self s = (returnValue.SUCCESSFUL_RETURN, x.Asin self.argument s) ∧
      Logarithm.evaluate x self s = (returnValue.SUCCESSFUL_RETURN, x.Log self.argument s) ∧
      Asin.evaluate recordingVisitor self calls =
        (returnValue.SUCCESSFUL_RETURN, calls ++ [Operator.Asin self.argument]) ∧
      Logarithm.evaluate recordingVisitor self calls =
        (returnValue.SUCCESSFUL_RETURN, calls ++ [Operator.Logarithm self.argument]) :=
  ⟨rfl, rfl, rfl, rfl⟩

/-- C18: symmetric-AD templates of `Logarithm`.  When the argument evaluates to `x ≠ 0` and
`clone` preserves evaluation, the first template `tmp` evaluates to `dLogarithm x = 1/x`
and the second template `tmp2` to `ddLogarithm x = -1/x/x`. -/
theorem Logarithm_ADsymmetricProtected_templates (vm : VirtualMethods)
    (self : UnaryOperator) (args : SymArgs) (point : Nat → ℝ) (x : ℝ)
    (ha : self.argument.evaluatesTo point x) (hx : x ≠ 0)
    (hclone : ∀ e y, e.evaluatesTo point y → (vm.clone e).evaluatesTo point y) :
    (Logarithm.ADsymmetricProtected (fun _ tmp _ _ => tmp) vm self args).evaluatesTo point
        (dLogarithm x) ∧
      (Logarithm.ADsymmetricProtected (fun _ _ tmp2 _ => tmp2) vm self args).evaluatesTo point
        (ddLogarithm x) ∧
      dLogarithm x = 1 / x ∧ ddLogarithm x = -1 / x / x := by
  have hca := hclone _ _ ha
  simp only [Operator.evaluatesTo] at ha hca
  refine ⟨?_, ?_, rfl, rfl⟩
  · simp only [Logarithm.ADsymmetricProtected, Operator.evaluatesTo, Operator.eval, hca,
      dLogarithm]
    rw [zpow_neg_one, one_div]
  · simp only [Logarithm.ADsymmetricProtected, Operator.evaluatesTo, Operator.eval, hca,
      ddLogarithm]
    have e2 : (((-1.0 : ℚ) : ℝ)) = -1 := by norm_num
    rw [e2, zpow_neg, show x ^ (2 : ℤ) = x ^ 2 by rw [zpow_ofNat]]
    field_simp
    ring

/-- Instance of C18: `log` of the atom 0 at the point where every atom is `2`. -/
theorem Logarithm_ADsymmetricProtected_templates_witness :
    (Logarithm.ADsymmetricProtected (fun _ tmp _ _ => tmp)
        (sampleMethods (.Atom 1) .CT_AFFINE) ⟨.Atom 0, none, .CT_UNKNOWN⟩
        ⟨1, [0], [0], .Atom 2, [.Atom 3], 1, [], [], [], ⟨0, []⟩, ⟨0, []⟩, ⟨0, []⟩⟩).evaluatesTo
        (fun _ => 2) (dLogarithm 2) :=
  (Logarithm_ADsymmetricProtected_templates (sampleMethods (.Atom 1) .CT_AFFINE)
    ⟨.Atom 0, none, .CT_UNKNOWN⟩
    ⟨1, [0], [0], .Atom 2, [.Atom 3], 1, [], [], [], ⟨0, []⟩, ⟨0, []⟩, ⟨0, []⟩⟩ (fun _ => 2) 2
    (by simp [Operator.evaluatesTo, Operator.eval]) (by norm_num) (fun _ _ h => h)).1

/-- C19: the two spellings of the first-derivative template of `Asin`.  At every evaluation
point the template `tmp` of `ADsymmetricProtected`, spelt with `Addition` and a product by
`-1.0`, has the value of the template spelt with `Subtraction`, which is what
`differentiate` returns for a child derivative tagged `NE_ONE`; the two expressions are not
structurally equal. -/
theorem Asin_template_spellings (vm : VirtualMethods) (self : UnaryOperator)
    (args : SymArgs) (point : Nat → ℝ) (index : Int) :
    Operator.eval (fun b y : ℝ => b ^ y) Real.arcsin Real.log point
        (Asin.ADsymmetricProtected (fun _ tmp _ _ => tmp) vm self args) =
      Operator.eval (fun b y : ℝ => b ^ y) Real.arcsin Real.log point
        (asinTemplate (vm.clone self.argument)) ∧
      Asin.ADsymmetricProtected (fun _ tmp _ _ => tmp) vm self args ≠
        asinTemplate (vm.clone self.argument) ∧
      (vm.isOneOrZero (vm.differentiate self.argument index) = NeutralElement.NE_ONE →
        Operator.eval (fun b y : ℝ => b ^ y) Real.arcsin Real.log point
            (Asin.ADsymmetricProtected (fun _ tmp _ _ => tmp) vm self args) =
          Operator.eval (fun b y : ℝ => b ^ y) Real.arcsin Real.log point
            (Asin.differentiate vm self index).1 ∧
        Asin.ADsymmetricProtected (fun _ tmp _ _ => tmp) vm self args ≠
          (Asin.differentiate vm self index).1) := by
  have hv : Operator.eval (fun b y : ℝ => b ^ y) Real.arcsin Real.log point
        (Asin.ADsymmetricProtected (fun _ tmp _ _ => tmp) vm self args) =
      Operator.eval (fun b y : ℝ => b ^ y) Real.arcsin Real.log point
        (asinTemplate (vm.clone self.argument)) := by
    simp only [Asin.ADsymmetricProtected, asinTemplate, Operator.eval]
    have e2 : (((-1.0 : ℚ) : ℝ)) = -1 := by norm_num
    rw [e2]
    congr 1
    ring
  have hs : Asin.ADsymmetricProtected (fun _ tmp _ _ => tmp) vm self args ≠
      asinTemplate (vm.clone self.argument) := by
    simp [Asin.ADsymmetricProtected, asinTemplate]
  refine ⟨hv, hs, ?_⟩
  intro h1
  have ed : (Asin.differentiate vm self index).1 = asinTemplate (vm.clone self.argument) := by
    simp [Asin.differentiate, h1, asinTemplate]
  rw [ed]
  exact ⟨hv, hs⟩

/-- Instance of C19: for `asin(atom 0)` with child derivative the one constant, the template
of the symmetric pass differs from the result of `differentiate`. -/
theorem Asin_template_spellings_witness :
    Asin.ADsymmetricProtected (fun _ tmp _ _ => tmp)
        (sampleMethods (.DoubleConstant 1.0 .NE_ONE) .CT_AFFINE) ⟨.Atom 0, none, .CT_UNKNOWN⟩
        ⟨1, [0], [0], .Atom 2, [.Atom 3], 1, [], [], [], ⟨0, []⟩, ⟨0, []⟩, ⟨0, []⟩⟩ ≠
      (Asin.differentiate (sampleMethods (.DoubleConstant 1.0 .NE_ONE) .CT_AFFINE)
        ⟨.Atom 0, none, .CT_UNKNOWN⟩ 0).1 :=
  ((Asin_template_spellings (sampleMethods (.DoubleConstant 1.0 .NE_ONE) .CT_AFFINE)
    ⟨.Atom 0, none, .CT_UNKNOWN⟩
    ⟨1, [0], [0], .Atom 2, [.Atom 3], 1, [], [], [], ⟨0, []⟩, ⟨0, []⟩, ⟨0, []⟩⟩ (fun _ => 0)
    0).2.2 rfl).2

/-- The five constants the two files construct are soundly tagged. -/
theorem tagSound_created :
    tagSound (0.0, NeutralElement.NE_ZERO) ∧ tagSound (1.0, NeutralElement.NE_ONE) ∧
      tagSound (-0.5, NeutralElement.NE_NEITHER_ONE_NOR_ZERO) ∧
      tagSound (-1.0, NeutralElement.NE_NEITHER_ONE_NOR_ZERO) ∧
      tagSound (-1.5, NeutralElement.NE_NEITHER_ONE_NOR_ZERO) := by
  refine ⟨?_, ?_, ?_, ?_, ?_⟩ <;> constructor <;> norm_num <;> decide

/-- C20: every constant that `differentiate`, `ADforwardProtected`, `ADbackwardProtected`
and `ADsymmetricProtected` of `Asin` and of `Logarithm` create is soundly tagged: each
constant of the returned expression, of the adjoint handed down, and of the two templates
is tagged `NE_ZERO` exactly when its value is `0` and `NE_ONE` exactly when it is `1`,
unless it belongs to a cloned subexpression.  Over atoms the constants of the two templates
of `Asin` are `1.0, -1.0, -0.5` and `1.0, -1.0, -1.5`, those of `Logarithm` none and
`-1.0`. -/
theorem created_constants_sound (vm : VirtualMethods) (self : UnaryOperator) (index : Int)
    (dim : Int) (varType : List VariableType) (component : List Int)
    (seed : List Operator) (s : Operator) (is : IndexSet) (args : SymArgs) :
    createdConstantsSound [(Asin.differentiate vm self index).1]
        [vm.clone self.argument, vm.clone (vm.differentiate self.argument index)] ∧
      createdConstantsSound [(Logarithm.differentiate vm self index).1]
        [vm.clone self.argument, vm.clone (vm.differentiate self.argument index)] ∧
      createdConstantsSound [(Asin.ADforwardProtected vm self dim varType component seed is).1]
        [vm.clone self.argument,
          vm.clone (vm.AD_forward self.argument dim varType component seed is).1] ∧
      createdConstantsSound
        [(Logarithm.ADforwardProtected vm self dim varType component seed is).1]
        [vm.clone self.argument,
          vm.clone (vm.AD_forward self.argument dim varType component seed is).1] ∧
      createdConstantsSound
        (Asin.ADbackwardProtected (withRecordedAdjoint vm) self dim varType component s [] is).2.1
        [vm.clone self.argument, vm.clone s] ∧
      createdConstantsSound
        (Logarithm.ADbackwardProtected (withRecordedAdjoint vm) self dim varType component s []
          is).2.1
        [vm.clone self.argument, vm.clone s] ∧
      createdConstantsSound
        (Asin.ADsymmetricProtected (fun _ tmp tmp2 _ => [tmp, tmp2]) vm self args)
        [vm.clone self.argument] ∧
      createdConstantsSound
        (Logarithm.ADsymmetricProtected (fun _ tmp tmp2 _ => [tmp, tmp2]) vm self args)
        [vm.clone self.argument] ∧
      (Asin.ADsymmetricProtected (fun _ tmp tmp2 _ => [tmp.constants, tmp2.constants])
          (sampleMethods (.Atom 1) .CT_AFFINE) ⟨.Atom 0, none, .CT_UNKNOWN⟩ args =
        [[(1.0, .NE_ONE), (-1.0, .NE_NEITHER_ONE_NOR_ZERO), (-0.5, .NE_NEITHER_ONE_NOR_ZERO)],
          [(1.0, .NE_ONE), (-1.0, .NE_NEITHER_ONE_NOR_ZERO),
            (-1.5, .NE_NEITHER_ONE_NOR_ZERO)]]) ∧
      (Logarithm.ADsymmetricProtected (fun _ tmp tmp2 _ => [tmp.constants, tmp2.constants])
          (sampleMethods (.Atom 1) .CT_AFFINE) ⟨.Atom 0, none, .CT_UNKNOWN⟩ args =
        [[], [(-1.0, .NE_NEITHER_ONE_NOR_ZERO)]]) := by
  obtain ⟨h0, h1, h2, h3, h4⟩ := tagSound_created
  refine ⟨?_, ?_, ?_, ?_, ?_, ?_, ?_, ?_, ?_, ?_⟩
  · simp only [createdConstantsSound, Asin.differentiate]
    split_ifs <;> simp [Operator.constants] <;> aesop
  · simp only [createdConstantsSound, Logarithm.differentiate]
    split_ifs <;> simp [Operator.constants] <;> aesop
  · simp only [createdConstantsSound, Asin.ADforwardProtected]
    split_ifs <;> simp [Operator.constants] <;> aesop
  · simp only [createdConstantsSound, Logarithm.ADforwardProtected]
    split_ifs <;> simp [Operator.constants] <;> aesop
  · simp only [createdConstantsSound, Asin.ADbackwardProtected, withRecordedAdjoint]
    split_ifs <;> simp [Operator.constants] <;> aesop
  · simp only [createdConstantsSound, Logarithm.ADbackwardProtected, withRecordedAdjoint]
    split_ifs <;> simp [Operator.constants] <;> aesop
  · simp only [createdConstantsSound, Asin.ADsymmetricProtected]
    simp [Operator.constants]
    aesop
  · simp only [createdConstantsSound, Logarithm.ADsymmetricProtected]
    simp [Operator.constants]
    aesop
  · simp [Asin.ADsymmetricProtected, Operator.constants, sampleMethods]
  · simp [Logarithm.ADsymmetricProtected, Operator.constants, sampleMethods]

/-- C21: `Asin` and `Logarithm` add nothing of their own to the index set in forward and
reverse mode.  The index set on return from `ADforwardProtected` is the one the single
`AD_forward` call on the argument leaves when started from the index set on entry, and the
one on return from `ADbackwardProtected` is the one the single `AD_backward` call leaves
(the adjoint handed down being the expression `differentiate` builds for the seed `s`), in
each of the three branches.  When the call into the argument leaves the index set alone, as
`AD_forward` of `sampleMethods` and `AD_backward` of `withRecordedAdjoint` do, the index set
on return is the one on entry, entry for entry. -/
theorem index_set_frame (vm : VirtualMethods) (self : UnaryOperator) (dim : Int)
    (varType : List VariableType) (component : List Int) (seed : List Operator)
    (s : Operator) (df : List Operator) (is : IndexSet) (index : Int) :
    (Asin.ADforwardProtected vm self dim varType component seed is).2.2 =
        (vm.AD_forward self.argument dim varType component seed is).2 ∧
      (Logarithm.ADforwardProtected vm self dim varType component seed is).2.2 =
        (vm.AD_forward self.argument dim varType component seed is).2 ∧
      (Asin.ADbackwardProtected vm self dim varType component s df is).2.2 =
        (vm.AD_backward self.argument dim varType component
          (Asin.differentiate (withDerivative vm s) self index).1 df is).2.2 ∧
      (Logarithm.ADbackwardProtected vm self dim varType component s df is).2.2 =
        (vm.AD_backward self.argument dim varType component
          (Logarithm.differentiate (withDerivative vm s) self index).1 df is).2.2 ∧
      (∀ (d : Operator) (c : CurvatureType),
        (Asin.ADforwardProtected (sampleMethods d c) self dim varType component seed is).2.2 =
          is ∧
        (Logarithm.ADforwardProtected (sampleMethods d c) self dim varType component seed
          is).2.2 = is) ∧
      (Asin.ADbackwardProtected (withRecordedAdjoint vm) self dim varType component s df
        is).2.2 = is ∧
      (Logarithm.ADbackwardProtected (withRecordedAdjoint vm) self dim varType component s df
        is).2.2 = is := by
  refine ⟨?_, ?_, ?_, ?_, fun d c => ⟨?_, ?_⟩, ?_, ?_⟩
  · simp only [Asin.ADforwardProtected]
    split_ifs <;> rfl
  · simp only [Logarithm.ADforwardProtected]
    split_ifs <;> rfl
  · simp only [Asin.ADbackwardProtected, Asin.differentiate, withDerivative]
    split_ifs <;> rfl
  · simp only [Logarithm.ADbackwardProtected, Logarithm.differentiate, withDerivative]
    split_ifs <;> simp_all
  · simp only [Asin.ADforwardProtected, sampleMethods]
    split_ifs <;> rfl
  · simp only [Logarithm.ADforwardProtected, sampleMethods]
    split_ifs <;> rfl
  · simp only [Asin.ADbackwardProtected, withRecordedAdjoint]
    split_ifs <;> rfl
  · simp only [Logarithm.ADbackwardProtected, withRecordedAdjoint]
    split_ifs <;> rfl

end Acado
